import Mathlib

/-!
# Verification of the SGSU HR Management backend (`backend/server.py`)

Shallow embedding of the FastAPI + MongoDB backend.  Conventions:

* Each MongoDB collection is a `List` of records, in insertion order
  (`insert_one` appends at the end; Mongo returns documents in natural
  order for the queries used here).
* `find_one(filter)` is `List.find?` with the filter as a boolean
  predicate; `update_one(filter, update)` modifies the *first* matching
  element only (`updateFirst` below), exactly as Mongo's `update_one`.
* Monetary amounts (Python `float`) are modelled as `ℚ`; the program only
  adds, subtracts and multiplies by the fixed constant `0.12`.
* Strings stay `String`; Python `Optional[str]` becomes `Option String`;
  Python dict payloads such as `allowances` become association lists
  `List (String × ℚ)`.
* A handler that can `raise HTTPException` returns the (possibly
  unchanged) collection together with `Except Err response`; raising
  before a write leaves the collection untouched, as in the Python code.
* Freshly generated values (`uuid.uuid4()`, `datetime.now()`) are passed
  in as explicit `String` arguments.
-/

namespace SGSU

/-- HTTP-level error taxonomy used by the handlers (status 404, 400, 401, 500). -/
inductive Err where
  | notFound
  | conflict
  | unauthorized
  | internal
deriving DecidableEq, Repr

/-! ## Mongo primitives -/

/-- `update_one`: apply `f` to the first element satisfying `p`, leave the
rest of the list unchanged.  If nothing matches, the list is unchanged. -/
def updateFirst (p : α → Bool) (f : α → α) : List α → List α
  | [] => []
  | x :: xs => if p x then f x :: xs else x :: updateFirst p f xs

/-- Index of the first element satisfying `p`, if any (the document
`update_one` would touch). -/
def findIdxFirst (p : α → Bool) : List α → Option Nat
  | [] => none
  | x :: xs => if p x then some 0 else (findIdxFirst p xs).map (· + 1)

theorem updateFirst_getElem? (p : α → Bool) (f : α → α) (l : List α) (i : Nat) :
    (updateFirst p f l)[i]? =
      (l[i]?).map (fun x => if findIdxFirst p l = some i then f x else x) := by
  induction l generalizing i with
  | nil => simp [updateFirst, findIdxFirst]
  | cons x xs ih =>
    by_cases hp : p x
    · cases i with
      | zero => simp [updateFirst, findIdxFirst, hp]
      | succ n => simp [updateFirst, findIdxFirst, hp]
    · cases i with
      | zero =>
        simp only [updateFirst, findIdxFirst, hp, if_false, Bool.false_eq_true,
          List.getElem?_cons_zero, Option.map_some']
        rcases h : findIdxFirst p xs with _ | j <;> simp [h]
      | succ n =>
        simp only [updateFirst, findIdxFirst, hp, if_false, Bool.false_eq_true,
          List.getElem?_cons_succ, ih]
        rcases h : findIdxFirst p xs with _ | j
        · simp [h]
        · by_cases hj : j = n
          · subst hj; simp [h]
          · simp [h, hj]

theorem findIdxFirst_of_find? (p : α → Bool) (l : List α) (b : α)
    (h : l.find? p = some b) :
    ∃ i, findIdxFirst p l = some i ∧ l[i]? = some b := by
  induction l with
  | nil => simp at h
  | cons x xs ih =>
    by_cases hp : p x
    · refine ⟨0, by simp [findIdxFirst, hp], ?_⟩
      simp only [List.find?_cons, hp] at h
      simpa using h
    · have hpx : p x = false := by simpa using hp
      simp only [List.find?_cons, hpx] at h
      obtain ⟨i, hi, hget⟩ := ih h
      exact ⟨i + 1, by simp [findIdxFirst, hp, hi], by simpa using hget⟩

theorem updateFirst_map_eq (p : α → Bool) (f : α → α) (g : α → β)
    (h : ∀ x, g (f x) = g x) (l : List α) :
    (updateFirst p f l).map g = l.map g := by
  induction l with
  | nil => rfl
  | cons x xs ih =>
    by_cases hp : p x
    · simp [updateFirst, hp, h x]
    · simp [updateFirst, hp, ih]

theorem find?_updateFirst (p : α → Bool) (f : α → α)
    (hpf : ∀ x, p x = true → p (f x) = true) (l : List α) :
    (updateFirst p f l).find? p = (l.find? p).map f := by
  induction l with
  | nil => rfl
  | cons x xs ih =>
    by_cases hp : p x
    · simp [updateFirst, hp, List.find?_cons, hpf x hp]
    · have hpx : p x = false := by simpa using hp
      simp only [updateFirst, hp, if_false, Bool.false_eq_true, List.find?_cons, hpx]
      exact ih

theorem length_filter_updateFirst (p q : α → Bool) (f : α → α)
    (h : ∀ x, p x = true → q (f x) = q x) (l : List α) :
    ((updateFirst p f l).filter q).length = (l.filter q).length := by
  induction l with
  | nil => rfl
  | cons x xs ih =>
    by_cases hp : p x
    · simp only [updateFirst, hp, if_true, List.filter_cons, h x hp]
      cases hq : q x <;> simp [hq]
    · simp only [updateFirst, hp, if_false, Bool.false_eq_true, List.filter_cons]
      cases hq : q x <;> simp [hq, ih]

theorem filter_updateFirst_of_singleton (p : α → Bool) (f : α → α) (l : List α) (b : α)
    (hfind : l.find? p = some b) (hlen : (l.filter p).length = 1)
    (hpf : ∀ x, p x = true → p (f x) = true) :
    (updateFirst p f l).filter p = [f b] := by
  induction l with
  | nil => simp at hfind
  | cons x xs ih =>
    by_cases hp : p x
    · simp only [List.find?_cons, hp] at hfind
      simp only [List.filter_cons, hp, if_true, List.length_cons,
        Nat.add_left_eq_self, List.length_eq_zero] at hlen
      have hb : b = x := by simpa using hfind.symm
      subst hb
      simp [updateFirst, hp, List.filter_cons, hpf b hp, hlen]
    · have hpx : p x = false := by simpa using hp
      simp only [List.find?_cons, hpx] at hfind
      simp only [List.filter_cons, hp, if_false, Bool.false_eq_true] at hlen
      simp [updateFirst, hp, List.filter_cons, hpx, ih hfind hlen]

/-! ## Finance data model (`Budget`, `Transaction`) -/

/-- A document of the `budgets` collection (model `Budget`, server.py). -/
structure Budget where
  id : String
  fiscal_year : String
  category : String
  allocated_amount : ℚ
  spent_amount : ℚ
  description : Option String
  created_at : String
deriving DecidableEq, Repr

/-- Request body `BudgetCreate` (also the full-replacement payload of
`PUT /budgets/{id}`); note it has no `spent_amount` field. -/
structure BudgetCreate where
  fiscal_year : String
  category : String
  allocated_amount : ℚ
  description : Option String
deriving DecidableEq, Repr

/-- A document of the `transactions` collection (model `Transaction`). -/
structure Transaction where
  id : String
  transaction_date : String
  category : String
  amount : ℚ
  transaction_type : String
  description : String
  created_by : String
  created_at : String
deriving DecidableEq, Repr

/-- Request body `TransactionCreate`. -/
structure TransactionCreate where
  transaction_date : String
  category : String
  amount : ℚ
  transaction_type : String
  description : String
  created_by : String
deriving DecidableEq, Repr

/-- `POST /transactions` (`create_transaction`, server.py lines 506-520):
insert the transaction, then — only when `transaction_type == "debit"` —
`db.budgets.update_one({"category": category}, {"$inc": {"spent_amount": amount}})`,
which increments the *first* budget whose category matches, if any.
Returns (new budgets, new transactions, response object). -/
def create_transaction (budgets : List Budget) (transactions : List Transaction)
    (tc : TransactionCreate) (newId newCreatedAt : String) :
    List Budget × List Transaction × Transaction :=
  let tx : Transaction :=
    { id := newId, transaction_date := tc.transaction_date, category := tc.category,
      amount := tc.amount, transaction_type := tc.transaction_type,
      description := tc.description, created_by := tc.created_by,
      created_at := newCreatedAt }
  let transactions' := transactions ++ [tx]
  let budgets' :=
    if tc.transaction_type == "debit" then
      updateFirst (fun b => b.category == tc.category)
        (fun b => { b with spent_amount := b.spent_amount + tc.amount }) budgets
    else budgets
  (budgets', transactions', tx)

/-- `PUT /budgets/{budget_id}` applies the payload's four fields to a budget;
`$set` of `BudgetCreate.model_dump()` touches exactly these keys. -/
def applyBudgetUpdate (bc : BudgetCreate) (b : Budget) : Budget :=
  { b with fiscal_year := bc.fiscal_year, category := bc.category,
           allocated_amount := bc.allocated_amount, description := bc.description }

/-- `PUT /budgets/{budget_id}` (`update_budget`, server.py lines 494-503):
404 if no budget has the id; otherwise `$set` the payload fields on the
first match and return the re-fetched document. -/
def update_budget (budgets : List Budget) (budget_id : String) (bc : BudgetCreate) :
    List Budget × Except Err (Option Budget) :=
  if (budgets.find? (fun b => b.id == budget_id)).isSome then
    let budgets' := updateFirst (fun b => b.id == budget_id) (applyBudgetUpdate bc) budgets
    (budgets', Except.ok (budgets'.find? (fun b => b.id == budget_id)))
  else
    (budgets, Except.error Err.notFound)

/-! ## Directory data model (`Employee`, `Student`) -/

/-- A document of the `employees` collection (model `Employee`); the Python
enum `EmployeeType` is stored as its string value. -/
structure Employee where
  id : String
  employee_id : String
  name : String
  email : String
  phone : String
  department : String
  designation : String
  employee_type : String
  joining_date : String
  basic_salary : ℚ
  ctc : ℚ
  allowances : List (String × ℚ)
  created_at : String
deriving DecidableEq, Repr

/-- Request body `EmployeeCreate`; note it *does* carry `employee_id`. -/
structure EmployeeCreate where
  employee_id : String
  name : String
  email : String
  phone : String
  department : String
  designation : String
  employee_type : String
  joining_date : String
  basic_salary : ℚ
  ctc : ℚ
  allowances : List (String × ℚ)
deriving DecidableEq, Repr

/-- A document of the `students` collection (model `Student`). -/
structure Student where
  id : String
  student_id : String
  name : String
  email : String
  phone : String
  course : String
  year : Int
  semester : Int
  created_at : String
deriving DecidableEq, Repr

/-- Request body `StudentCreate`; it carries `student_id`. -/
structure StudentCreate where
  student_id : String
  name : String
  email : String
  phone : String
  course : String
  year : Int
  semester : Int
deriving DecidableEq, Repr

/-- `$set` of `EmployeeCreate.model_dump()`: every payload field, including
`employee_id`, is written; `id` and `created_at` are not in the payload. -/
def applyEmployeeUpdate (ec : EmployeeCreate) (e : Employee) : Employee :=
  { e with employee_id := ec.employee_id, name := ec.name, email := ec.email,
           phone := ec.phone, department := ec.department,
           designation := ec.designation, employee_type := ec.employee_type,
           joining_date := ec.joining_date, basic_salary := ec.basic_salary,
           ctc := ec.ctc, allowances := ec.allowances }

/-- `PUT /employees/{employee_id}` (`update_employee`, server.py lines
304-313): 404 if no employee has the path id; otherwise `update_one` with
`$set: employee_data.model_dump()` on the first match, then re-fetch by the
*path* id (which can miss if the payload changed `employee_id`). -/
def update_employee (employees : List Employee) (employee_id : String)
    (ec : EmployeeCreate) : List Employee × Except Err (Option Employee) :=
  if (employees.find? (fun e => e.employee_id == employee_id)).isSome then
    let employees' :=
      updateFirst (fun e => e.employee_id == employee_id) (applyEmployeeUpdate ec) employees
    (employees', Except.ok (employees'.find? (fun e => e.employee_id == employee_id)))
  else
    (employees, Except.error Err.notFound)

/-- `$set` of `StudentCreate.model_dump()`: every payload field, including
`student_id`, is written. -/
def applyStudentUpdate (sc : StudentCreate) (s : Student) : Student :=
  { s with student_id := sc.student_id, name := sc.name, email := sc.email,
           phone := sc.phone, course := sc.course, year := sc.year,
           semester := sc.semester }

/-- `PUT /students/{student_id}` (`update_student`, server.py lines 347-356),
same shape as `update_employee`. -/
def update_student (students : List Student) (student_id : String)
    (sc : StudentCreate) : List Student × Except Err (Option Student) :=
  if (students.find? (fun s => s.student_id == student_id)).isSome then
    let students' :=
      updateFirst (fun s => s.student_id == student_id) (applyStudentUpdate sc) students
    (students', Except.ok (students'.find? (fun s => s.student_id == student_id)))
  else
    (students, Except.error Err.notFound)

/-! ## Attendance data model -/

/-- A document of the `attendance` collection (model `Attendance`); the
Python enum `AttendanceStatus` is stored as its string value. -/
structure Attendance where
  id : String
  person_id : String
  person_type : String
  date : String
  status : String
  remarks : Option String
  marked_by : Option String
  created_at : String
deriving DecidableEq, Repr

/-- Request body `AttendanceCreate`: exactly six fields, no `id` and no
`created_at`. -/
structure AttendanceCreate where
  person_id : String
  person_type : String
  date : String
  status : String
  remarks : Option String
  marked_by : Option String
deriving DecidableEq, Repr

/-- The duplicate-check filter of `mark_attendance`:
`{"person_id": ..., "date": ...}`. -/
def attKey (ac : AttendanceCreate) (a : Attendance) : Bool :=
  a.person_id == ac.person_id && a.date == ac.date

/-- `$set` of `AttendanceCreate.model_dump()`: the six payload fields. -/
def applyAttendanceUpdate (ac : AttendanceCreate) (a : Attendance) : Attendance :=
  { a with person_id := ac.person_id, person_type := ac.person_type,
           date := ac.date, status := ac.status, remarks := ac.remarks,
           marked_by := ac.marked_by }

/-- `POST /attendance` (`mark_attendance`, server.py lines 366-391): look up
an existing record by (person_id, date); if found, `$set` the payload on the
first match and return the re-fetched record, otherwise insert a fresh
record with new `id`/`created_at` and return it. -/
def mark_attendance (attendance : List Attendance) (ac : AttendanceCreate)
    (newId newCreatedAt : String) : List Attendance × Option Attendance :=
  match attendance.find? (attKey ac) with
  | some _ =>
    let attendance' := updateFirst (attKey ac) (applyAttendanceUpdate ac) attendance
    (attendance', attendance'.find? (attKey ac))
  | none =>
    let attObj : Attendance :=
      { id := newId, person_id := ac.person_id, person_type := ac.person_type,
        date := ac.date, status := ac.status, remarks := ac.remarks,
        marked_by := ac.marked_by, created_at := newCreatedAt }
    (attendance ++ [attObj], some attObj)

/-- Number of stored attendance records for a given (person_id, date). -/
def keyCount (l : List Attendance) (pid d : String) : Nat :=
  (l.filter (fun a => a.person_id == pid && a.date == d)).length

/-- The attendance-store invariant: at most one record per (person_id, date). -/
def attInvariant (l : List Attendance) : Prop :=
  ∀ pid d, keyCount l pid d ≤ 1

/-! ## Payroll data model -/

/-- A document of the `payroll` collection (model `Payroll`). -/
structure Payroll where
  id : String
  employee_id : String
  month : String
  year : Int
  basic_salary : ℚ
  allowances : List (String × ℚ)
  deductions : List (String × ℚ)
  epf_employee : ℚ
  epf_employer : ℚ
  gross_salary : ℚ
  net_salary : ℚ
  created_at : String
deriving DecidableEq, Repr

/-- Request body `PayrollCreate`. -/
structure PayrollCreate where
  employee_id : String
  month : String
  year : Int
deriving DecidableEq, Repr

/-- `calculate_epfo` (server.py lines 233-237): 12% employee, 12% employer. -/
def calculate_epfo (basic_salary : ℚ) : ℚ × ℚ :=
  (basic_salary * 0.12, basic_salary * 0.12)

/-- The duplicate-check filter of `generate_payroll`:
`{"employee_id": ..., "month": ..., "year": ...}`. -/
def payrollKey (pc : PayrollCreate) (p : Payroll) : Bool :=
  p.employee_id == pc.employee_id && p.month == pc.month && p.year == pc.year

/-- `POST /payroll/generate` (`generate_payroll`, server.py lines 412-457):
404 if the employee is absent, 400 if a payroll record already exists for
the (employee_id, month, year) triple — both before any write — otherwise
compute the EPF figures and totals from the employee's stored compensation
and insert a snapshot record. -/
def generate_payroll (employees : List Employee) (payroll : List Payroll)
    (pc : PayrollCreate) (newId newCreatedAt : String) :
    List Payroll × Except Err Payroll :=
  match employees.find? (fun e => e.employee_id == pc.employee_id) with
  | none => (payroll, Except.error Err.notFound)
  | some employee =>
    if (payroll.find? (payrollKey pc)).isSome then
      (payroll, Except.error Err.conflict)
    else
      let basic_salary := employee.basic_salary
      let allowances := employee.allowances
      let epf := calculate_epfo basic_salary
      let total_allowances := (allowances.map Prod.snd).sum
      let gross_salary := basic_salary + total_allowances
      let total_deductions := epf.1
      let net_salary := gross_salary - total_deductions
      let p : Payroll :=
        { id := newId, employee_id := pc.employee_id, month := pc.month,
          year := pc.year, basic_salary := basic_salary, allowances := allowances,
          deductions := [("epf", epf.1)], epf_employee := epf.1,
          epf_employer := epf.2, gross_salary := gross_salary,
          net_salary := net_salary, created_at := newCreatedAt }
      (payroll ++ [p], Except.ok p)

/-! ## Filtered list endpoints

The Python handlers build a Mongo query dict with
`if param: query[field] = param`, so a parameter that is absent *or falsy*
(`""` for strings, `0` for the integer `year`) adds no constraint. -/

/-- One string filter clause: `if param: query[field] = param` followed by
Mongo equality matching of the field value `v`. -/
def optFilterStr (param : Option String) (v : String) : Bool :=
  match param with
  | none => true
  | some s => if s == "" then true else v == s

/-- One integer filter clause (the `year` query parameter of
`GET /payroll`): `0` is falsy in Python, so it adds no constraint. -/
def optFilterInt (param : Option Int) (v : Int) : Bool :=
  match param with
  | none => true
  | some n => if n == 0 then true else v == n

/-- `GET /attendance` (`get_attendance`, server.py lines 393-409). -/
def get_attendance (attendance : List Attendance)
    (person_id person_type date : Option String) : List Attendance :=
  attendance.filter (fun a =>
    optFilterStr person_id a.person_id && optFilterStr person_type a.person_type &&
      optFilterStr date a.date)

/-- `GET /payroll` (`get_payrolls`, server.py lines 459-475). -/
def get_payrolls (payroll : List Payroll)
    (employee_id month : Option String) (year : Option Int) : List Payroll :=
  payroll.filter (fun p =>
    optFilterStr employee_id p.employee_id && optFilterStr month p.month &&
      optFilterInt year p.year)

/-- `GET /transactions` (`get_transactions`, server.py lines 522-535). -/
def get_transactions (transactions : List Transaction)
    (category transaction_type : Option String) : List Transaction :=
  transactions.filter (fun t =>
    optFilterStr category t.category && optFilterStr transaction_type t.transaction_type)

/-- `GET /budgets` (`get_budgets`, server.py lines 486-492). -/
def get_budgets (budgets : List Budget) (fiscal_year : Option String) : List Budget :=
  budgets.filter (fun b => optFilterStr fiscal_year b.fiscal_year)

/-! ## Dashboard -/

/-- Response of `GET /dashboard/stats`. -/
structure DashboardStats where
  total_employees : Nat
  total_students : Nat
  total_faculty : Nat
  total_management : Nat
  today_attendance : Nat
  monthly_payroll : ℚ
deriving DecidableEq, Repr

/-- `GET /dashboard/stats` (`get_dashboard_stats`, server.py lines 538-566):
collection counts plus an aggregation summing `net_salary` over payroll
records of the current month/year.  Mongo's `$group` over zero matching
documents yields no groups, hence the Python
`payroll_result[0]['total'] if payroll_result else 0`. -/
def get_dashboard_stats (employees : List Employee) (students : List Student)
    (attendance : List Attendance) (payroll : List Payroll)
    (today current_month : String) (current_year : Int) : DashboardStats :=
  let matched := payroll.filter (fun p => p.month == current_month && p.year == current_year)
  let payroll_result : List ℚ :=
    if matched.isEmpty then [] else [(matched.map Payroll.net_salary).sum]
  { total_employees := employees.length
    total_students := students.length
    total_faculty := (employees.filter (fun e => e.employee_type == "faculty")).length
    total_management := (employees.filter (fun e => e.employee_type == "management")).length
    today_attendance :=
      (attendance.filter (fun a => a.date == today && a.status == "present")).length
    monthly_payroll := match payroll_result with | [] => 0 | t :: _ => t }

/-! ## Auth

User documents are Python dicts, modelled as ordered association lists with
nullable string values (`employee_id` may be `None`).  The external,
nondeterministic library calls are abstract function arguments:
`hashFn` for `bcrypt.hashpw` with a fresh salt (`hash_password`),
`verifyFn` for `bcrypt.checkpw` (`verify_password`), `tokenFn` for
`jwt.encode` (`create_access_token`, applied to the `sub` and `role`
claims) and `decodeFn` for `jwt.decode` + expiry check (returning the
`sub` claim, or `none` for an invalid/expired token). -/

/-- A nullable string field value in a stored user document. -/
inductive DVal where
  | str (s : String)
  | null
deriving DecidableEq, Repr

/-- A user document: field names in declaration order, as `model_dump()`. -/
abbrev Doc := List (String × DVal)

/-- Dict lookup `d[k]` (first occurrence of the key). -/
def getField (d : Doc) (k : String) : Option DVal :=
  (d.find? (fun kv => kv.1 == k)).map Prod.snd

/-- `del d[k]` on a dict / the Mongo projection `{k: 0}`. -/
def delKey (d : Doc) (k : String) : Doc :=
  d.filter (fun kv => !(kv.1 == k))

/-- Convert `Optional[str]` to a stored field value. -/
def optDVal : Option String → DVal
  | none => DVal.null
  | some s => DVal.str s

/-- Request body `UserCreate`; the `role` enum is stored as its string value. -/
structure UserCreateM where
  email : String
  password : String
  name : String
  role : String
  employee_id : Option String
deriving DecidableEq, Repr

/-- Request body `UserLogin`. -/
structure UserLoginM where
  email : String
  password : String
deriving DecidableEq, Repr

/-- Response model `Token`: bearer token plus the public user view. -/
structure TokenResponse where
  access_token : String
  token_type : String
  user : Doc
deriving DecidableEq, Repr

/-- The stored user document built by `register`: `user_data.model_dump()`
with `password` replaced by the hash, completed to a `User` (id, email,
password, name, role, employee_id, created_at — the model's field order). -/
def regDoc (hashFn : String → String) (newId newCreatedAt : String)
    (user_data : UserCreateM) : Doc :=
  [("id", DVal.str newId), ("email", DVal.str user_data.email),
   ("password", DVal.str (hashFn user_data.password)),
   ("name", DVal.str user_data.name), ("role", DVal.str user_data.role),
   ("employee_id", optDVal user_data.employee_id),
   ("created_at", DVal.str newCreatedAt)]

/-- `POST /auth/register` (`register`, server.py lines 240-262): 400 if the
email is taken; otherwise store the user with `password` replaced by the
salted hash, and answer with a token and the user dict minus `password`
(`del user_response['password']`). -/
def register (users : List Doc) (hashFn : String → String)
    (tokenFn : String → String → String) (newId newCreatedAt : String)
    (user_data : UserCreateM) : List Doc × Except Err TokenResponse :=
  if (users.find? (fun d => getField d "email" == some (DVal.str user_data.email))).isSome then
    (users, Except.error Err.conflict)
  else
    let doc := regDoc hashFn newId newCreatedAt user_data
    let token := tokenFn newId user_data.role
    let user_response := delKey doc "password"
    (users ++ [doc], Except.ok ⟨token, "bearer", user_response⟩)

/-- First string value of a field (documents written by `register` always
carry string `id`/`role` fields). -/
def getStr (d : Doc) (k : String) : String :=
  match getField d k with
  | some (DVal.str s) => s
  | _ => ""

/-- `POST /auth/login` (`login`, server.py lines 264-272): 401 if the email
is unknown or the password check fails; otherwise a token plus the stored
user dict with `del user['password']`.  A stored document without a string
`password` field would make `user['password']` blow up (500). -/
def login (users : List Doc) (verifyFn : String → String → Bool)
    (tokenFn : String → String → String) (credentials : UserLoginM) :
    Except Err TokenResponse :=
  match users.find? (fun d => getField d "email" == some (DVal.str credentials.email)) with
  | none => Except.error Err.unauthorized
  | some user =>
    match getField user "password" with
    | some (DVal.str hashed) =>
      if verifyFn credentials.password hashed then
        Except.ok ⟨tokenFn (getStr user "id") (getStr user "role"), "bearer",
          delKey user "password"⟩
      else Except.error Err.unauthorized
    | _ => Except.error Err.internal

/-- `GET /auth/me` = `get_current_user` (server.py lines 217-231): decode the
token; look the user up by `id` with the projection
`{"_id": 0, "password": 0}`, which returns the document without the
password field; 401 on failure. -/
def get_current_user (users : List Doc) (decodeFn : String → Option String)
    (token : String) : Except Err Doc :=
  match decodeFn token with
  | none => Except.error Err.unauthorized
  | some user_id =>
    match users.find? (fun d => getField d "id" == some (DVal.str user_id)) with
    | none => Except.error Err.unauthorized
    | some user => Except.ok (delKey user "password")

/-! ## Sample records used by witnesses and counterexamples -/

/-- A faculty employee with the compensation figures of the spec's payroll
example: `basic_salary = 50000`, `allowances = {"hra": 10000, "da": 7500}`. -/
def sampleEmployee : Employee :=
  { id := "u-1", employee_id := "EMP001", name := "Asha", email := "asha@example.com",
    phone := "9999999999", department := "CS", designation := "Professor",
    employee_type := "faculty", joining_date := "2020-01-01", basic_salary := 50000,
    ctc := 900000, allowances := [("hra", 10000), ("da", 7500)], created_at := "t0" }

/-- Payroll request for `sampleEmployee`, January 2025. -/
def samplePayrollCreate : PayrollCreate :=
  { employee_id := "EMP001", month := "January", year := 2025 }

/-- An already-generated payroll record for the same (employee, month, year). -/
def samplePayrollDoc : Payroll :=
  { id := "p-0", employee_id := "EMP001", month := "January", year := 2025,
    basic_salary := 50000, allowances := [("hra", 10000), ("da", 7500)],
    deductions := [("epf", 6000)], epf_employee := 6000, epf_employer := 6000,
    gross_salary := 67500, net_salary := 61500, created_at := "t0" }

/-- First of two budgets sharing the category `"Infrastructure"`. -/
def infraBudgetA : Budget :=
  { id := "b-1", fiscal_year := "2024-25", category := "Infrastructure",
    allocated_amount := 100000, spent_amount := 0, description := none,
    created_at := "t0" }

/-- Second budget with the same category. -/
def infraBudgetB : Budget :=
  { id := "b-2", fiscal_year := "2024-25", category := "Infrastructure",
    allocated_amount := 50000, spent_amount := 0, description := some "second",
    created_at := "t0" }

/-- A debit of 1000 in category `"Infrastructure"`. -/
def infraDebit : TransactionCreate :=
  { transaction_date := "2025-01-15", category := "Infrastructure", amount := 1000,
    transaction_type := "debit", description := "servers", created_by := "accounts" }

/-- Replacement payload for budget `"b-1"`. -/
def sampleBudgetUpdate : BudgetCreate :=
  { fiscal_year := "2025-26", category := "Maintenance", allocated_amount := 77000,
    description := some "updated" }

/-! ## C8 — dashboard on an empty store -/

/-- C8: on an empty store, `dashboard/stats` succeeds and returns 0 for
every counter (total_employees, total_students, total_faculty,
total_management, today_attendance) and 0 for monthly_payroll, for any
current date, month and year. -/
theorem dashboard_stats_empty_store (today current_month : String) (current_year : Int) :
    get_dashboard_stats [] [] [] [] today current_month current_year =
      ⟨0, 0, 0, 0, 0, 0⟩ := rfl

/-! ## C9 — falsy filter values act as wildcards -/

/-- C9: on the filtered list endpoints (attendance, payroll, transactions,
budgets), a filter parameter supplied with a falsy value — the empty string
for string filters, `0` for payroll's integer year — produces exactly the
same result as omitting the parameter, whatever the stored data. -/
theorem falsy_filter_params_are_wildcards (attendance : List Attendance)
    (payroll : List Payroll) (transactions : List Transaction) (budgets : List Budget)
    (pid pt d em mo cat tt : Option String) (yr : Option Int) :
    (get_attendance attendance (some "") pt d = get_attendance attendance none pt d) ∧
    (get_attendance attendance pid (some "") d = get_attendance attendance pid none d) ∧
    (get_attendance attendance pid pt (some "") = get_attendance attendance pid pt none) ∧
    (get_payrolls payroll (some "") mo yr = get_payrolls payroll none mo yr) ∧
    (get_payrolls payroll em (some "") yr = get_payrolls payroll em none yr) ∧
    (get_payrolls payroll em mo (some 0) = get_payrolls payroll em mo none) ∧
    (get_transactions transactions (some "") tt = get_transactions transactions none tt) ∧
    (get_transactions transactions cat (some "") = get_transactions transactions cat none) ∧
    (get_budgets budgets (some "") = get_budgets budgets none) := by
  refine ⟨?_, ?_, ?_, ?_, ?_, ?_, ?_, ?_, ?_⟩ <;>
    simp [get_attendance, get_payrolls, get_transactions, get_budgets,
      optFilterStr, optFilterInt]

/-! ## C5 — generate payroll error handling -/

/-- C5: `generate_payroll` fails with NotFound when the employee does not
exist and with Conflict when a payroll record already exists for the
(employee_id, month, year) triple — in both cases storing nothing — and
inserts exactly one new record otherwise. -/
theorem generate_payroll_error_paths (employees : List Employee) (payroll : List Payroll)
    (pc : PayrollCreate) (newId newCreatedAt : String) :
    (employees.find? (fun e => e.employee_id == pc.employee_id) = none →
       generate_payroll employees payroll pc newId newCreatedAt =
         (payroll, Except.error Err.notFound)) ∧
    (∀ employee, employees.find? (fun e => e.employee_id == pc.employee_id) = some employee →
       (payroll.find? (payrollKey pc)).isSome = true →
       generate_payroll employees payroll pc newId newCreatedAt =
         (payroll, Except.error Err.conflict)) ∧
    (∀ employee, employees.find? (fun e => e.employee_id == pc.employee_id) = some employee →
       payroll.find? (payrollKey pc) = none →
       ∃ p, generate_payroll employees payroll pc newId newCreatedAt =
         (payroll ++ [p], Except.ok p)) := by
  refine ⟨?_, ?_, ?_⟩
  · intro h
    simp [generate_payroll, h]
  · intro employee h hdup
    simp [generate_payroll, h, hdup]
  · intro employee h hdup
    unfold generate_payroll
    rw [h]
    simp only [hdup, Option.isSome_none, Bool.false_eq_true, if_false]
    exact ⟨_, rfl⟩

/-- Witness for C5: all three branches at concrete stores. -/
theorem generate_payroll_error_paths_witness :
    (generate_payroll [] [] samplePayrollCreate "p-1" "t1" =
       ([], Except.error Err.notFound)) ∧
    (generate_payroll [sampleEmployee] [samplePayrollDoc] samplePayrollCreate "p-1" "t1" =
       ([samplePayrollDoc], Except.error Err.conflict)) ∧
    (∃ p, generate_payroll [sampleEmployee] [] samplePayrollCreate "p-1" "t1" =
       ([p], Except.ok p)) := by
  refine ⟨?_, ?_, ?_⟩
  · exact (generate_payroll_error_paths [] [] samplePayrollCreate "p-1" "t1").1 rfl
  · exact (generate_payroll_error_paths [sampleEmployee] [samplePayrollDoc]
      samplePayrollCreate "p-1" "t1").2.1 sampleEmployee (by decide) (by decide)
  · obtain ⟨p, hp⟩ := (generate_payroll_error_paths [sampleEmployee] []
      samplePayrollCreate "p-1" "t1").2.2 sampleEmployee (by decide) rfl
    exact ⟨p, by simpa using hp⟩

/-! ## C2 — payroll EPF arithmetic -/

/-- C2: whenever the employee exists and no payroll record exists yet for
the requested (employee_id, month, year), the generated record satisfies
`epf_employee = 0.12 * basic_salary`, `epf_employer = 0.12 * basic_salary`,
`gross_salary = basic_salary + Σ allowances` and
`net_salary = gross_salary - epf_employee`. -/
theorem generate_payroll_epf_arithmetic (employees : List Employee) (payroll : List Payroll)
    (pc : PayrollCreate) (newId newCreatedAt : String) (employee : Employee)
    (hemp : employees.find? (fun e => e.employee_id == pc.employee_id) = some employee)
    (hdup : payroll.find? (payrollKey pc) = none) :
    ∃ p, generate_payroll employees payroll pc newId newCreatedAt =
        (payroll ++ [p], Except.ok p) ∧
      p.basic_salary = employee.basic_salary ∧
      p.epf_employee = 0.12 * employee.basic_salary ∧
      p.epf_employer = 0.12 * employee.basic_salary ∧
      p.gross_salary = employee.basic_salary + (employee.allowances.map Prod.snd).sum ∧
      p.net_salary = p.gross_salary - p.epf_employee := by
  unfold generate_payroll
  rw [hemp]
  simp only [hdup, Option.isSome_none, Bool.false_eq_true, if_false]
  refine ⟨_, rfl, rfl, ?_, ?_, rfl, rfl⟩
  · show employee.basic_salary * 0.12 = 0.12 * employee.basic_salary
    ring
  · show employee.basic_salary * 0.12 = 0.12 * employee.basic_salary
    ring

/-- Witness for C2: the spec's worked example — basic 50000 with allowances
{hra: 10000, da: 7500} gives epf 6000/6000, gross 67500, net 61500. -/
theorem generate_payroll_epf_arithmetic_witness :
    ∃ p, generate_payroll [sampleEmployee] [] samplePayrollCreate "p-1" "t1" =
        ([p], Except.ok p) ∧
      p.epf_employee = 6000 ∧ p.epf_employer = 6000 ∧
      p.gross_salary = 67500 ∧ p.net_salary = 61500 := by
  obtain ⟨p, hp, hb, he1, he2, hg, hn⟩ := generate_payroll_epf_arithmetic
    [sampleEmployee] [] samplePayrollCreate "p-1" "t1" sampleEmployee (by decide) rfl
  have hbs : sampleEmployee.basic_salary = 50000 := rfl
  have hal : (sampleEmployee.allowances.map Prod.snd).sum = 17500 := by
    norm_num [sampleEmployee]
  refine ⟨p, by simpa using hp, ?_, ?_, ?_, ?_⟩
  · rw [he1, hbs]; norm_num
  · rw [he2, hbs]; norm_num
  · rw [hg, hbs, hal]; norm_num
  · rw [hn, hg, he1, hbs, hal]; norm_num

/-! ## C7 — budget update never touches spent_amount -/

/-- C7: `update_budget` leaves every budget's `spent_amount` (and opaque id)
unchanged, whatever the payload; for an existing budget it replaces
`fiscal_year`, `category`, `allocated_amount` and `description` with the
payload values on the first record carrying the id. -/
theorem update_budget_preserves_spent_amount (budgets : List Budget)
    (budget_id : String) (bc : BudgetCreate) :
    ((update_budget budgets budget_id bc).1.map Budget.spent_amount =
       budgets.map Budget.spent_amount) ∧
    ((update_budget budgets budget_id bc).1.map Budget.id = budgets.map Budget.id) ∧
    (∀ b₀, budgets.find? (fun b => b.id == budget_id) = some b₀ →
       ∃ i, findIdxFirst (fun b => b.id == budget_id) budgets = some i ∧
         (update_budget budgets budget_id bc).1[i]? = some (applyBudgetUpdate bc b₀) ∧
         (applyBudgetUpdate bc b₀).spent_amount = b₀.spent_amount ∧
         (applyBudgetUpdate bc b₀).created_at = b₀.created_at ∧
         (applyBudgetUpdate bc b₀).fiscal_year = bc.fiscal_year ∧
         (applyBudgetUpdate bc b₀).category = bc.category ∧
         (applyBudgetUpdate bc b₀).allocated_amount = bc.allocated_amount ∧
         (applyBudgetUpdate bc b₀).description = bc.description) := by
  refine ⟨?_, ?_, ?_⟩
  · unfold update_budget
    by_cases h : (budgets.find? (fun b => b.id == budget_id)).isSome
    · simp only [h, if_true]
      exact updateFirst_map_eq (fun b => b.id == budget_id) (applyBudgetUpdate bc)
        Budget.spent_amount (fun b => rfl) budgets
    · simp [h]
  · unfold update_budget
    by_cases h : (budgets.find? (fun b => b.id == budget_id)).isSome
    · simp only [h, if_true]
      exact updateFirst_map_eq (fun b => b.id == budget_id) (applyBudgetUpdate bc)
        Budget.id (fun b => rfl) budgets
    · simp [h]
  · intro b₀ hfind
    obtain ⟨i, hi, hget⟩ := findIdxFirst_of_find? _ _ _ hfind
    have hsome : (budgets.find? (fun b => b.id == budget_id)).isSome = true := by
      rw [hfind]; rfl
    refine ⟨i, hi, ?_, rfl, rfl, rfl, rfl, rfl, rfl⟩
    unfold update_budget
    simp only [hsome, if_true]
    rw [updateFirst_getElem?, hget, hi]
    simp

/-- Witness for C7 at a concrete store: the payload rewrites the category
and allocation of budget `"b-1"` but its `spent_amount` stays 0. -/
theorem update_budget_preserves_spent_amount_witness :
    ((update_budget [infraBudgetA] "b-1" sampleBudgetUpdate).1.map Budget.spent_amount =
       [infraBudgetA].map Budget.spent_amount) ∧
    (∃ i, findIdxFirst (fun b => b.id == "b-1") [infraBudgetA] = some i ∧
       (update_budget [infraBudgetA] "b-1" sampleBudgetUpdate).1[i]? =
         some (applyBudgetUpdate sampleBudgetUpdate infraBudgetA) ∧
       (applyBudgetUpdate sampleBudgetUpdate infraBudgetA).spent_amount =
         infraBudgetA.spent_amount ∧
       (applyBudgetUpdate sampleBudgetUpdate infraBudgetA).created_at =
         infraBudgetA.created_at ∧
       (applyBudgetUpdate sampleBudgetUpdate infraBudgetA).fiscal_year =
         sampleBudgetUpdate.fiscal_year ∧
       (applyBudgetUpdate sampleBudgetUpdate infraBudgetA).category =
         sampleBudgetUpdate.category ∧
       (applyBudgetUpdate sampleBudgetUpdate infraBudgetA).allocated_amount =
         sampleBudgetUpdate.allocated_amount ∧
       (applyBudgetUpdate sampleBudgetUpdate infraBudgetA).description =
         sampleBudgetUpdate.description) := by
  constructor
  · exact (update_budget_preserves_spent_amount [infraBudgetA] "b-1" sampleBudgetUpdate).1
  · exact (update_budget_preserves_spent_amount [infraBudgetA] "b-1"
      sampleBudgetUpdate).2.2 infraBudgetA (by decide)

/-! ## C1 — debit transactions touch only the first matching budget -/

/-- Counterexample to C1 as stated: with two budgets of category
`"Infrastructure"`, a debit of 1000 leaves the stored spent amounts at
`[1000, 0]` — the second matching budget is *not* incremented, because
`update_one` touches a single document. -/
theorem create_transaction_multi_budget_counterexample :
    ((create_transaction [infraBudgetA, infraBudgetB] [] infraDebit "t-1" "t1").1.map
        Budget.spent_amount = [1000, 0]) ∧
    ¬ (∀ b ∈ (create_transaction [infraBudgetA, infraBudgetB] [] infraDebit "t-1" "t1").1,
         b.category = "Infrastructure" → b.spent_amount = 1000) := by
  have hrun : (create_transaction [infraBudgetA, infraBudgetB] [] infraDebit "t-1" "t1").1 =
      [{ infraBudgetA with spent_amount := 1000 }, infraBudgetB] := by
    norm_num [create_transaction, updateFirst, infraBudgetA, infraBudgetB, infraDebit]
  refine ⟨?_, ?_⟩
  · rw [hrun]
    norm_num [infraBudgetA, infraBudgetB]
  · intro hall
    have hmem : infraBudgetB ∈
        (create_transaction [infraBudgetA, infraBudgetB] [] infraDebit "t-1" "t1").1 := by
      rw [hrun]; simp
    have := hall infraBudgetB hmem rfl
    rw [show infraBudgetB.spent_amount = 0 from rfl] at this
    exact absurd this (by norm_num)

/-- C1 (amended): a debit increments only the *first* stored budget whose
category equals the transaction's (by string equality), by exactly the
transaction's amount; every other budget — including later ones with the
same category — is unchanged, and a non-debit transaction changes no
budget at all. -/
theorem create_transaction_debit_updates_only_first (budgets : List Budget)
    (transactions : List Transaction) (tc : TransactionCreate) (newId newCreatedAt : String) :
    (tc.transaction_type ≠ "debit" →
       (create_transaction budgets transactions tc newId newCreatedAt).1 = budgets) ∧
    (tc.transaction_type = "debit" → ∀ i : Nat,
       (create_transaction budgets transactions tc newId newCreatedAt).1[i]? =
         (budgets[i]?).map (fun b =>
           if findIdxFirst (fun x => x.category == tc.category) budgets = some i then
             { b with spent_amount := b.spent_amount + tc.amount }
           else b)) := by
  constructor
  · intro h
    simp [create_transaction, h]
  · intro h i
    simp only [create_transaction, h, beq_self_eq_true, if_true]
    exact updateFirst_getElem? _ _ budgets i

/-- Witness for C1 (amended) on the two-budget store: the first
Infrastructure budget is incremented to 1000, the second stays 0. -/
theorem create_transaction_debit_updates_only_first_witness :
    ((create_transaction [infraBudgetA, infraBudgetB] [] infraDebit "t-1" "t1").1[0]? =
       ([infraBudgetA, infraBudgetB][0]?).map (fun b =>
         if findIdxFirst (fun x => x.category == infraDebit.category)
             [infraBudgetA, infraBudgetB] = some 0 then
           { b with spent_amount := b.spent_amount + infraDebit.amount }
         else b)) ∧
    ((create_transaction [infraBudgetA, infraBudgetB] [] infraDebit "t-1" "t1").1[1]? =
       ([infraBudgetA, infraBudgetB][1]?).map (fun b =>
         if findIdxFirst (fun x => x.category == infraDebit.category)
             [infraBudgetA, infraBudgetB] = some 1 then
           { b with spent_amount := b.spent_amount + infraDebit.amount }
         else b)) := by
  constructor
  · exact (create_transaction_debit_updates_only_first [infraBudgetA, infraBudgetB] []
      infraDebit "t-1" "t1").2 rfl 0
  · exact (create_transaction_debit_updates_only_first [infraBudgetA, infraBudgetB] []
      infraDebit "t-1" "t1").2 rfl 1

/-! ## C3 — the directory update path does mutate the natural id -/

/-- The employee stored under natural id `"E1"`. -/
def storedEmployee : Employee :=
  { id := "u-2", employee_id := "E1", name := "Ravi", email := "ravi@example.com",
    phone := "8888888888", department := "Math", designation := "Lecturer",
    employee_type := "faculty", joining_date := "2021-06-01", basic_salary := 40000,
    ctc := 700000, allowances := [], created_at := "t0" }

/-- A full-replacement payload that carries a *different* natural id. -/
def renamePayload : EmployeeCreate :=
  { employee_id := "E2", name := "Ravi", email := "ravi@example.com",
    phone := "8888888888", department := "Math", designation := "Lecturer",
    employee_type := "faculty", joining_date := "2021-06-01", basic_salary := 40000,
    ctc := 700000, allowances := [] }

/-- The student stored under natural id `"S1"`. -/
def storedStudent : Student :=
  { id := "u-3", student_id := "S1", name := "Mina", email := "mina@example.com",
    phone := "7777777777", course := "BSc", year := 2, semester := 3,
    created_at := "t0" }

/-- A student replacement payload carrying a different natural id. -/
def studentRenamePayload : StudentCreate :=
  { student_id := "S2", name := "Mina", email := "mina@example.com",
    phone := "7777777777", course := "BSc", year := 2, semester := 3 }

/-- Counterexample to C3 as stated: updating employee `"E1"` with a payload
whose `employee_id` is `"E2"` changes the stored record's natural id to
`"E2"` (and the handler's re-fetch by the path id then misses, so the
route returns nothing to validate). -/
theorem update_employee_changes_natural_id :
    ((update_employee [storedEmployee] "E1" renamePayload).1.map Employee.employee_id =
       ["E2"]) ∧
    (update_employee [storedEmployee] "E1" renamePayload).2 = Except.ok none := by
  constructor <;> rfl

/-- C3 (amended): the directory update `$set`s every payload field,
*including* the natural id — after a successful update the targeted
record's `employee_id`/`student_id` equals the payload's, while only the
opaque `id` and `created_at` are preserved and all other stored records
are untouched.  The natural id is therefore unchanged only when the
payload repeats it. -/
theorem update_natural_id_follows_payload (employees : List Employee)
    (students : List Student) (eid sid : String) (ec : EmployeeCreate)
    (sc : StudentCreate) (e₀ : Employee) (s₀ : Student)
    (he : employees.find? (fun e => e.employee_id == eid) = some e₀)
    (hs : students.find? (fun s => s.student_id == sid) = some s₀) :
    (∃ i, findIdxFirst (fun e => e.employee_id == eid) employees = some i ∧
       (update_employee employees eid ec).1[i]? = some (applyEmployeeUpdate ec e₀) ∧
       ∀ j, j ≠ i → (update_employee employees eid ec).1[j]? = employees[j]?) ∧
    (applyEmployeeUpdate ec e₀).employee_id = ec.employee_id ∧
    (applyEmployeeUpdate ec e₀).id = e₀.id ∧
    (applyEmployeeUpdate ec e₀).created_at = e₀.created_at ∧
    (∃ i, findIdxFirst (fun s => s.student_id == sid) students = some i ∧
       (update_student students sid sc).1[i]? = some (applyStudentUpdate sc s₀) ∧
       ∀ j, j ≠ i → (update_student students sid sc).1[j]? = students[j]?) ∧
    (applyStudentUpdate sc s₀).student_id = sc.student_id ∧
    (applyStudentUpdate sc s₀).id = s₀.id ∧
    (applyStudentUpdate sc s₀).created_at = s₀.created_at := by
  have hesome : (employees.find? (fun e => e.employee_id == eid)).isSome = true := by
    rw [he]; rfl
  have hssome : (students.find? (fun s => s.student_id == sid)).isSome = true := by
    rw [hs]; rfl
  refine ⟨?_, rfl, rfl, rfl, ?_, rfl, rfl, rfl⟩
  · obtain ⟨i, hi, hget⟩ := findIdxFirst_of_find? _ _ _ he
    refine ⟨i, hi, ?_, ?_⟩
    · unfold update_employee
      simp only [hesome, if_true]
      rw [updateFirst_getElem?, hget, hi]
      simp
    · intro j hj
      unfold update_employee
      simp only [hesome, if_true]
      rw [updateFirst_getElem?, hi]
      simp [Ne.symm hj]
  · obtain ⟨i, hi, hget⟩ := findIdxFirst_of_find? _ _ _ hs
    refine ⟨i, hi, ?_, ?_⟩
    · unfold update_student
      simp only [hssome, if_true]
      rw [updateFirst_getElem?, hget, hi]
      simp
    · intro j hj
      unfold update_student
      simp only [hssome, if_true]
      rw [updateFirst_getElem?, hi]
      simp [Ne.symm hj]

/-- Witness for C3 (amended) on concrete one-record stores. -/
theorem update_natural_id_follows_payload_witness :
    ((∃ i, findIdxFirst (fun e => e.employee_id == "E1") [storedEmployee] = some i ∧
        (update_employee [storedEmployee] "E1" renamePayload).1[i]? =
          some (applyEmployeeUpdate renamePayload storedEmployee) ∧
        ∀ j, j ≠ i →
          (update_employee [storedEmployee] "E1" renamePayload).1[j]? =
            [storedEmployee][j]?) ∧
      (applyEmployeeUpdate renamePayload storedEmployee).employee_id =
        renamePayload.employee_id ∧
      (applyEmployeeUpdate renamePayload storedEmployee).id = storedEmployee.id ∧
      (applyEmployeeUpdate renamePayload storedEmployee).created_at =
        storedEmployee.created_at ∧
      (∃ i, findIdxFirst (fun s => s.student_id == "S1") [storedStudent] = some i ∧
        (update_student [storedStudent] "S1" studentRenamePayload).1[i]? =
          some (applyStudentUpdate studentRenamePayload storedStudent) ∧
        ∀ j, j ≠ i →
          (update_student [storedStudent] "S1" studentRenamePayload).1[j]? =
            [storedStudent][j]?) ∧
      (applyStudentUpdate studentRenamePayload storedStudent).student_id =
        studentRenamePayload.student_id ∧
      (applyStudentUpdate studentRenamePayload storedStudent).id = storedStudent.id ∧
      (applyStudentUpdate studentRenamePayload storedStudent).created_at =
        storedStudent.created_at) :=
  update_natural_id_follows_payload [storedEmployee] [storedStudent] "E1" "S1"
    renamePayload studentRenamePayload storedEmployee storedStudent
    (by decide) (by decide)

/-! ## C10 — re-marking attendance preserves the record's identity -/

/-- C10: when a record already exists for the payload's (person_id, date),
`mark_attendance` keeps every stored record's opaque `id` and `created_at`
(no record is created or replaced wholesale), and the returned record is
the original one with exactly the six payload fields overwritten. -/
theorem remark_preserves_record_identity (attendance : List Attendance)
    (ac : AttendanceCreate) (newId newCreatedAt : String) (a₀ : Attendance)
    (h : attendance.find? (attKey ac) = some a₀) :
    ((mark_attendance attendance ac newId newCreatedAt).1.map
        (fun a => (a.id, a.created_at)) =
       attendance.map (fun a => (a.id, a.created_at))) ∧
    ((mark_attendance attendance ac newId newCreatedAt).2 =
       some (applyAttendanceUpdate ac a₀)) ∧
    (applyAttendanceUpdate ac a₀).id = a₀.id ∧
    (applyAttendanceUpdate ac a₀).created_at = a₀.created_at ∧
    (applyAttendanceUpdate ac a₀).person_id = ac.person_id ∧
    (applyAttendanceUpdate ac a₀).person_type = ac.person_type ∧
    (applyAttendanceUpdate ac a₀).date = ac.date ∧
    (applyAttendanceUpdate ac a₀).status = ac.status ∧
    (applyAttendanceUpdate ac a₀).remarks = ac.remarks ∧
    (applyAttendanceUpdate ac a₀).marked_by = ac.marked_by := by
  have hkey : ∀ x, attKey ac x = true → attKey ac (applyAttendanceUpdate ac x) = true := by
    intro x hx
    simp [attKey, applyAttendanceUpdate]
  refine ⟨?_, ?_, rfl, rfl, rfl, rfl, rfl, rfl, rfl, rfl⟩
  · unfold mark_attendance
    rw [h]
    exact updateFirst_map_eq (attKey ac) (applyAttendanceUpdate ac)
      (fun a => (a.id, a.created_at)) (fun x => rfl) attendance
  · unfold mark_attendance
    rw [h]
    show (updateFirst (attKey ac) (applyAttendanceUpdate ac) attendance).find? (attKey ac) =
      some (applyAttendanceUpdate ac a₀)
    rw [find?_updateFirst (attKey ac) (applyAttendanceUpdate ac) hkey, h]
    rfl

/-- Attendance record stored for ("EMP001", "2025-01-15"). -/
def storedAttendance : Attendance :=
  { id := "a-1", person_id := "EMP001", person_type := "employee",
    date := "2025-01-15", status := "present", remarks := none,
    marked_by := some "admin", created_at := "t0" }

/-- A second submission for the same person and date with a new status. -/
def secondMark : AttendanceCreate :=
  { person_id := "EMP001", person_type := "employee", date := "2025-01-15",
    status := "absent", remarks := some "sick", marked_by := some "hr" }

/-- Witness for C10: re-marking the stored record keeps `id = "a-1"` and
`created_at = "t0"` while taking the second payload's fields. -/
theorem remark_preserves_record_identity_witness :
    ((mark_attendance [storedAttendance] secondMark "a-9" "t9").1.map
        (fun a => (a.id, a.created_at)) =
       [storedAttendance].map (fun a => (a.id, a.created_at))) ∧
    ((mark_attendance [storedAttendance] secondMark "a-9" "t9").2 =
       some (applyAttendanceUpdate secondMark storedAttendance)) ∧
    (applyAttendanceUpdate secondMark storedAttendance).id = storedAttendance.id ∧
    (applyAttendanceUpdate secondMark storedAttendance).created_at =
      storedAttendance.created_at ∧
    (applyAttendanceUpdate secondMark storedAttendance).person_id = secondMark.person_id ∧
    (applyAttendanceUpdate secondMark storedAttendance).person_type =
      secondMark.person_type ∧
    (applyAttendanceUpdate secondMark storedAttendance).date = secondMark.date ∧
    (applyAttendanceUpdate secondMark storedAttendance).status = secondMark.status ∧
    (applyAttendanceUpdate secondMark storedAttendance).remarks = secondMark.remarks ∧
    (applyAttendanceUpdate secondMark storedAttendance).marked_by =
      secondMark.marked_by :=
  remark_preserves_record_identity [storedAttendance] secondMark "a-9" "t9"
    storedAttendance (by decide)

/-! ## C4 — at most one attendance record per (person_id, date) -/

/-- Overwriting an existing (person_id, date) record changes no per-key
record count: the rewritten record keeps the marked key, every other record
is untouched. -/
theorem keyCount_mark_update (l : List Attendance) (ac : AttendanceCreate)
    (nid nts : String) (a₀ : Attendance) (h : l.find? (attKey ac) = some a₀)
    (pid d : String) :
    keyCount (mark_attendance l ac nid nts).1 pid d = keyCount l pid d := by
  unfold mark_attendance
  rw [h]
  exact length_filter_updateFirst (attKey ac)
    (fun a => a.person_id == pid && a.date == d) (applyAttendanceUpdate ac)
    (fun x hx => by
      have h1 : x.person_id = ac.person_id ∧ x.date = ac.date := by
        simpa [attKey] using hx
      simp [applyAttendanceUpdate, h1.1, h1.2]) l

/-- Inserting a record for a fresh (person_id, date) makes that key's count
exactly one. -/
theorem keyCount_mark_insert_self (l : List Attendance) (ac : AttendanceCreate)
    (nid nts : String) (h : l.find? (attKey ac) = none) :
    keyCount (mark_attendance l ac nid nts).1 ac.person_id ac.date = 1 := by
  unfold mark_attendance
  rw [h]
  have hnil : l.filter (fun a => a.person_id == ac.person_id && a.date == ac.date) = [] := by
    rw [List.filter_eq_nil_iff]
    intro a ha
    have := List.find?_eq_none.mp h a ha
    simpa [attKey] using this
  simp [keyCount, List.filter_append, hnil]

/-- Inserting a record for a fresh (person_id, date) leaves every other
key's count unchanged. -/
theorem keyCount_mark_insert_other (l : List Attendance) (ac : AttendanceCreate)
    (nid nts : String) (h : l.find? (attKey ac) = none) (pid d : String)
    (hne : ¬(ac.person_id = pid ∧ ac.date = d)) :
    keyCount (mark_attendance l ac nid nts).1 pid d = keyCount l pid d := by
  unfold mark_attendance
  rw [h]
  have hobj : (ac.person_id == pid && ac.date == d) = false := by
    by_cases h1 : ac.person_id = pid
    · by_cases h2 : ac.date = d
      · exact absurd ⟨h1, h2⟩ hne
      · simp [h2]
    · simp [h1]
  simp [keyCount, List.filter_append, hobj]

/-- `mark_attendance` preserves the at-most-one-record-per-key invariant. -/
theorem attInvariant_mark (l : List Attendance) (ac : AttendanceCreate)
    (nid nts : String) (hinv : attInvariant l) :
    attInvariant (mark_attendance l ac nid nts).1 := by
  intro pid d
  cases hfind : l.find? (attKey ac) with
  | some a₀ =>
    rw [keyCount_mark_update l ac nid nts a₀ hfind pid d]
    exact hinv pid d
  | none =>
    by_cases hk : ac.person_id = pid ∧ ac.date = d
    · obtain ⟨h1, h2⟩ := hk
      subst h1
      subst h2
      rw [keyCount_mark_insert_self l ac nid nts hfind]
    · rw [keyCount_mark_insert_other l ac nid nts hfind pid d hk]
      exact hinv pid d

/-- After any mark, the marked key holds exactly one record (given the
invariant beforehand). -/
theorem keyCount_mark_self (l : List Attendance) (ac : AttendanceCreate)
    (nid nts : String) (hinv : attInvariant l) :
    keyCount (mark_attendance l ac nid nts).1 ac.person_id ac.date = 1 := by
  cases hfind : l.find? (attKey ac) with
  | none => exact keyCount_mark_insert_self l ac nid nts hfind
  | some a₀ =>
    rw [keyCount_mark_update l ac nid nts a₀ hfind]
    refine le_antisymm (hinv _ _) ?_
    have hmem : a₀ ∈ l := List.mem_of_find?_eq_some hfind
    have hkey : attKey ac a₀ = true := List.find?_some hfind
    have hmf : a₀ ∈ l.filter (fun a => a.person_id == ac.person_id && a.date == ac.date) :=
      List.mem_filter.mpr ⟨hmem, by simpa [attKey] using hkey⟩
    exact List.length_pos.mpr (List.ne_nil_of_mem hmf)

/-- C4: the attendance store keeps at most one record per (person_id,
date) across marks, and marking the same key twice (with any statuses)
leaves exactly one stored record for that key, carrying the second
submission's status. -/
theorem attendance_upsert_unique (l : List Attendance) (ac₁ ac₂ : AttendanceCreate)
    (id₁ ts₁ id₂ ts₂ : String) (hinv : attInvariant l)
    (hpid : ac₂.person_id = ac₁.person_id) (hdate : ac₂.date = ac₁.date) :
    attInvariant (mark_attendance l ac₁ id₁ ts₁).1 ∧
    attInvariant (mark_attendance (mark_attendance l ac₁ id₁ ts₁).1 ac₂ id₂ ts₂).1 ∧
    keyCount (mark_attendance (mark_attendance l ac₁ id₁ ts₁).1 ac₂ id₂ ts₂).1
      ac₁.person_id ac₁.date = 1 ∧
    ∀ a ∈ (mark_attendance (mark_attendance l ac₁ id₁ ts₁).1 ac₂ id₂ ts₂).1,
      a.person_id = ac₁.person_id → a.date = ac₁.date → a.status = ac₂.status := by
  set l₁ := (mark_attendance l ac₁ id₁ ts₁).1 with hl₁
  have hinv₁ : attInvariant l₁ := attInvariant_mark l ac₁ id₁ ts₁ hinv
  have hone : keyCount l₁ ac₁.person_id ac₁.date = 1 := keyCount_mark_self l ac₁ id₁ ts₁ hinv
  have hkeyeq : attKey ac₂ = fun a => a.person_id == ac₁.person_id && a.date == ac₁.date := by
    funext a
    simp [attKey, hpid, hdate]
  have hlen : (l₁.filter (attKey ac₂)).length = 1 := by
    rw [hkeyeq]
    exact hone
  have hfind : ∃ b, l₁.find? (attKey ac₂) = some b := by
    cases hf : l₁.find? (attKey ac₂) with
    | some b => exact ⟨b, rfl⟩
    | none =>
      exfalso
      have hnil : l₁.filter (attKey ac₂) = [] :=
        List.filter_eq_nil_iff.mpr (fun a ha => List.find?_eq_none.mp hf a ha)
      rw [hnil] at hlen
      simp at hlen
  obtain ⟨b, hb⟩ := hfind
  have hinv₂ : attInvariant (mark_attendance l₁ ac₂ id₂ ts₂).1 :=
    attInvariant_mark l₁ ac₂ id₂ ts₂ hinv₁
  have hcount₂ : keyCount (mark_attendance l₁ ac₂ id₂ ts₂).1 ac₁.person_id ac₁.date = 1 := by
    rw [keyCount_mark_update l₁ ac₂ id₂ ts₂ b hb ac₁.person_id ac₁.date]
    exact hone
  refine ⟨hinv₁, hinv₂, hcount₂, ?_⟩
  intro a ha hapid hadate
  have hl₂ : (mark_attendance l₁ ac₂ id₂ ts₂).1 =
      updateFirst (attKey ac₂) (applyAttendanceUpdate ac₂) l₁ := by
    unfold mark_attendance
    rw [hb]
  have hpf : ∀ x, attKey ac₂ x = true → attKey ac₂ (applyAttendanceUpdate ac₂ x) = true := by
    intro x hx
    simp [attKey, applyAttendanceUpdate]
  have hsingle := filter_updateFirst_of_singleton (attKey ac₂) (applyAttendanceUpdate ac₂)
    l₁ b hb hlen hpf
  rw [hl₂] at ha
  have hamem : a ∈ (updateFirst (attKey ac₂) (applyAttendanceUpdate ac₂) l₁).filter
      (attKey ac₂) :=
    List.mem_filter.mpr ⟨ha, by simp [attKey, hpid, hdate, hapid, hadate]⟩
  rw [hsingle] at hamem
  have haeq : a = applyAttendanceUpdate ac₂ b := by simpa using hamem
  rw [haeq]
  rfl

/-- First submission for ("EMP001", "2025-01-15"), status "present". -/
def firstMark : AttendanceCreate :=
  { person_id := "EMP001", person_type := "employee", date := "2025-01-15",
    status := "present", remarks := none, marked_by := some "admin" }

/-- Witness for C4: starting from an empty store, marking
("EMP001", "2025-01-15") as "present" and then as "absent" leaves exactly
one record for that key and it carries "absent". -/
theorem attendance_upsert_unique_witness :
    attInvariant (mark_attendance [] firstMark "a-1" "t1").1 ∧
    attInvariant
      (mark_attendance (mark_attendance [] firstMark "a-1" "t1").1 secondMark "a-2" "t2").1 ∧
    keyCount
      (mark_attendance (mark_attendance [] firstMark "a-1" "t1").1 secondMark "a-2" "t2").1
      firstMark.person_id firstMark.date = 1 ∧
    ∀ a ∈ (mark_attendance (mark_attendance [] firstMark "a-1" "t1").1 secondMark "a-2" "t2").1,
      a.person_id = firstMark.person_id → a.date = firstMark.date →
        a.status = secondMark.status :=
  attendance_upsert_unique [] firstMark secondMark "a-1" "t1" "a-2" "t2"
    (fun pid d => by simp [keyCount]) rfl rfl

/-! ## C6 — the password never leaves the auth service -/

/-- Deleting a key really removes it from a document's key list. -/
theorem not_mem_keys_delKey (d : Doc) (k : String) :
    k ∉ (delKey d k).map Prod.fst := by
  intro hmem
  obtain ⟨kv, hkv, hfst⟩ := List.mem_map.mp hmem
  obtain ⟨hin, hne⟩ := List.mem_filter.mp hkv
  rw [hfst] at hne
  simp at hne

/-- C6: for every request, the `password` field is absent from the response
payload of register, login and `/auth/me`, and the stored password value is
the salted hash of the submitted plaintext — never the plaintext itself
(`hne` is bcrypt's guarantee that a salted hash differs from its input). -/
theorem password_never_in_responses (users : List Doc)
    (hashFn : String → String) (verifyFn : String → String → Bool)
    (tokenFn : String → String → String) (decodeFn : String → Option String)
    (newId newCreatedAt : String) (user_data : UserCreateM)
    (hne : ∀ p, hashFn p ≠ p) :
    (∀ users₂ resp,
       register users hashFn tokenFn newId newCreatedAt user_data =
         (users₂, Except.ok resp) →
       "password" ∉ resp.user.map Prod.fst ∧
       ∃ d, users₂ = users ++ [d] ∧
         getField d "password" = some (DVal.str (hashFn user_data.password)) ∧
         getField d "password" ≠ some (DVal.str user_data.password)) ∧
    (∀ credentials resp, login users verifyFn tokenFn credentials = Except.ok resp →
       "password" ∉ resp.user.map Prod.fst) ∧
    (∀ token d, get_current_user users decodeFn token = Except.ok d →
       "password" ∉ d.map Prod.fst) := by
  refine ⟨?_, ?_, ?_⟩
  · intro users₂ resp hreg
    unfold register at hreg
    by_cases hex :
        (users.find? (fun d => getField d "email" == some (DVal.str user_data.email))).isSome
    · rw [if_pos hex] at hreg
      exact absurd (congrArg Prod.snd hreg) (by simp)
    · rw [if_neg hex] at hreg
      have h1 : users ++ [regDoc hashFn newId newCreatedAt user_data] = users₂ :=
        congrArg Prod.fst hreg
      have h2 : Except.ok (TokenResponse.mk (tokenFn newId user_data.role) "bearer"
          (delKey (regDoc hashFn newId newCreatedAt user_data) "password")) =
          Except.ok resp := congrArg Prod.snd hreg
      have h3 := Except.ok.inj h2
      refine ⟨?_, regDoc hashFn newId newCreatedAt user_data, h1.symm, rfl, ?_⟩
      · rw [← h3]
        exact not_mem_keys_delKey (regDoc hashFn newId newCreatedAt user_data) "password"
      · intro hcontra
        have hc2 : some (DVal.str (hashFn user_data.password)) =
            some (DVal.str user_data.password) := hcontra
        exact hne user_data.password (DVal.str.inj (Option.some.inj hc2))
  · intro credentials resp hlog
    unfold login at hlog
    cases hf : users.find? (fun d => getField d "email" == some (DVal.str credentials.email)) with
    | none => simp [hf] at hlog
    | some user =>
      cases hpw : getField user "password" with
      | none => simp [hf, hpw] at hlog
      | some v =>
        cases v with
        | null => simp [hf, hpw] at hlog
        | str hashed =>
          cases hv : verifyFn credentials.password hashed with
          | false => simp [hf, hpw, hv] at hlog
          | true =>
            simp only [hf, hpw, hv, if_true, Except.ok.injEq] at hlog
            rw [← hlog]
            exact not_mem_keys_delKey user "password"
  · intro token d hme
    unfold get_current_user at hme
    cases hd : decodeFn token with
    | none => simp [hd] at hme
    | some uid =>
      cases hf : users.find? (fun dd => getField dd "id" == some (DVal.str uid)) with
      | none => simp [hd, hf] at hme
      | some user =>
        simp only [hd, hf, Except.ok.injEq] at hme
        rw [← hme]
        exact not_mem_keys_delKey user "password"

/-- Stand-in for `bcrypt.hashpw` in witnesses: prepends a marker, so the
digest never equals the plaintext. -/
def sampleHashFn : String → String := fun p => "h" ++ p

/-- `sampleHashFn` satisfies bcrypt's digest-differs-from-input guarantee. -/
theorem sampleHashFn_ne (p : String) : sampleHashFn p ≠ p := by
  intro h
  have h2 : ("h" ++ p).length = p.length := congrArg String.length h
  rw [String.length_append] at h2
  have h3 : "h".length = 1 := rfl
  omega

/-- Stand-in for `bcrypt.checkpw` in witnesses. -/
def sampleVerifyFn : String → String → Bool := fun _ _ => true

/-- Stand-in for `jwt.encode` in witnesses. -/
def sampleTokenFn : String → String → String := fun sub role => sub ++ ":" ++ role

/-- Stand-in for `jwt.decode` in witnesses: every token resolves to "u-9". -/
def sampleDecodeFn : String → Option String := fun _ => some "u-9"

/-- Registration payload used by the C6 witness. -/
def sampleUser : UserCreateM :=
  { email := "new@example.com", password := "secret", name := "New", role := "hr",
    employee_id := none }

/-- A stored user document (id "u-9"). -/
def sampleUserDoc : Doc :=
  [("id", DVal.str "u-9"), ("email", DVal.str "old@example.com"),
   ("password", DVal.str "stored-hash"), ("name", DVal.str "Old"),
   ("role", DVal.str "admin"), ("employee_id", DVal.null),
   ("created_at", DVal.str "t0")]

/-- Witness for C6 with concrete stand-ins for the bcrypt/jwt calls,
including a fully evaluated `/auth/me` request against a concrete store. -/
theorem password_never_in_responses_witness :
    (∀ p, sampleHashFn p ≠ p) ∧
    (∀ users₂ resp,
       register [sampleUserDoc] sampleHashFn sampleTokenFn "u-10" "t1" sampleUser =
         (users₂, Except.ok resp) →
       "password" ∉ resp.user.map Prod.fst ∧
       ∃ d, users₂ = [sampleUserDoc] ++ [d] ∧
         getField d "password" = some (DVal.str (sampleHashFn sampleUser.password)) ∧
         getField d "password" ≠ some (DVal.str sampleUser.password)) ∧
    ("password" ∉ (delKey sampleUserDoc "password").map Prod.fst) := by
  have H := password_never_in_responses [sampleUserDoc] sampleHashFn sampleVerifyFn
    sampleTokenFn sampleDecodeFn "u-10" "t1" sampleUser sampleHashFn_ne
  exact ⟨sampleHashFn_ne, H.1, H.2.2 "any-token" (delKey sampleUserDoc "password") rfl⟩

end SGSU
